import Mathlib

/-
Verification of the MES operation core of the api-workshop repository:
the operation state machine (app/domain/operation_state_machine.py),
the quantity/metrics rules (app/domain/manufacturing_rules.py) and the
operation service with its CRUD storage layer
(app/services/mes_operation_service.py, app/crud/mes_operation.py).

Python values are embedded as follows: optional fields become Option,
Python int becomes Int or Nat (quantities are validated non-negative by
the pydantic schema, so they are Nat), Decimal minute fields become Rat,
datetime values become Int (seconds since epoch; datetime objects are
always truthy, so presence is the only thing truthiness tests on them),
and dict payloads become structures.  Python truthiness of an optional
number (used pervasively by the source validations) is "present and
non-zero".
-/

set_option autoImplicit false

namespace MESWorkshop

/-- Operation statuses, mirroring the OperationStatus enum of
operation_state_machine.py. -/
inductive OperationStatus where
  | planned
  | released
  | inProgress
  | onHold
  | finished
  | cancelled
deriving DecidableEq, Repr

/-- String value of a status, mirroring the enum value strings. -/
def statusStr : OperationStatus → String
  | .planned => "PLANNED"
  | .released => "RELEASED"
  | .inProgress => "IN_PROGRESS"
  | .onHold => "ON_HOLD"
  | .finished => "FINISHED"
  | .cancelled => "CANCELLED"

/-- Parsing a status string, mirroring the OperationStatus(value)
constructor which raises ValueError (here: none) on unknown values. -/
def parseStatus (s : String) : Option OperationStatus :=
  if s = "PLANNED" then some .planned
  else if s = "RELEASED" then some .released
  else if s = "IN_PROGRESS" then some .inProgress
  else if s = "ON_HOLD" then some .onHold
  else if s = "FINISHED" then some .finished
  else if s = "CANCELLED" then some .cancelled
  else none

/-- A state transition entry, mirroring the StateTransition dataclass. -/
structure StateTransition where
  from_state : OperationStatus
  to_state : OperationStatus
  conditions : List String
  effects : List String
  requires_confirmation : Bool := false
deriving DecidableEq, Repr

/-- The transition table, mirroring _define_transitions: the dict entry of
each status, looked up with dict.get (unlisted keys give []). -/
def transitionsFor : OperationStatus → List StateTransition
  | .planned =>
    [ { from_state := .planned, to_state := .released,
        conditions := ["has_required_materials", "machine_available"],
        effects := ["notify_operator", "reserve_capacity"] },
      { from_state := .planned, to_state := .cancelled,
        conditions := ["authorized_cancellation"],
        effects := ["release_reservations", "update_schedule"],
        requires_confirmation := true } ]
  | .released =>
    [ { from_state := .released, to_state := .inProgress,
        conditions := ["operator_available", "setup_complete"],
        effects := ["start_time_tracking", "update_machine_status"] },
      { from_state := .released, to_state := .onHold,
        conditions := ["hold_reason_provided"],
        effects := ["pause_schedule", "notify_planning"] },
      { from_state := .released, to_state := .cancelled,
        conditions := ["authorized_cancellation"],
        effects := ["release_reservations", "update_schedule"],
        requires_confirmation := true } ]
  | .inProgress =>
    [ { from_state := .inProgress, to_state := .finished,
        conditions := ["quality_approved", "quantity_complete"],
        effects := ["calculate_actuals", "update_inventory", "release_capacity"] },
      { from_state := .inProgress, to_state := .onHold,
        conditions := ["hold_reason_provided"],
        effects := ["pause_time_tracking", "notify_planning"] },
      { from_state := .inProgress, to_state := .cancelled,
        conditions := ["authorized_cancellation", "work_stoppage_approved"],
        effects := ["handle_wip", "calculate_partial_actuals"],
        requires_confirmation := true } ]
  | .onHold =>
    [ { from_state := .onHold, to_state := .inProgress,
        conditions := ["hold_reason_resolved", "resources_available"],
        effects := ["resume_time_tracking", "update_machine_status"] },
      { from_state := .onHold, to_state := .cancelled,
        conditions := ["authorized_cancellation"],
        effects := ["handle_wip", "release_reservations"],
        requires_confirmation := true } ]
  | .finished => []
  | .cancelled => []

/-- Transition context, mirroring the context dict of can_transition /
transition.  Each field is an Option because the Python code reads every
key with ctx.get and a per-condition default. -/
structure Ctx where
  materialsAvailable : Option Bool := none
  machineStatus : Option String := none
  userRole : Option String := none
  operatorAssigned : Option Bool := none
  setupStatus : Option String := none
  holdReason : Option String := none
  qualityStatus : Option String := none
  qtyProcessed : Option Int := none
  qtyDesired : Option Int := none
  holdResolved : Option Bool := none
  resourcesReady : Option Bool := none
  stoppageApproved : Option Bool := none
deriving DecidableEq, Repr

/-- One named condition checker, mirroring the condition_checkers dict of
_check_conditions.  A condition name absent from the dict is skipped by
the source loop, hence the true fallback. -/
def checkCondition (c : String) (ctx : Ctx) : Bool :=
  if c = "has_required_materials" then ctx.materialsAvailable.getD true
  else if c = "machine_available" then !(ctx.machineStatus == some "DOWN")
  else if c = "authorized_cancellation" then
    ctx.userRole == some "supervisor" || ctx.userRole == some "manager"
  else if c = "operator_available" then ctx.operatorAssigned.getD true
  else if c = "setup_complete" then ctx.setupStatus == some "COMPLETE"
  else if c = "hold_reason_provided" then !(ctx.holdReason.getD "" == "")
  else if c = "quality_approved" then ctx.qualityStatus == some "APPROVED"
  else if c = "quantity_complete" then
    decide (ctx.qtyProcessed.getD 0 ≥ ctx.qtyDesired.getD 1)
  else if c = "hold_reason_resolved" then ctx.holdResolved.getD false
  else if c = "resources_available" then ctx.resourcesReady.getD true
  else if c = "work_stoppage_approved" then ctx.stoppageApproved.getD false
  else true

/-- Conjunction of the named conditions of a transition, mirroring the
loop of _check_conditions. -/
def check_conditions (t : StateTransition) (ctx : Ctx) : Bool :=
  t.conditions.all (fun c => checkCondition c ctx)

/-- Core of can_transition after both statuses parsed: same-state returns
true immediately, otherwise the first table entry with the requested
target decides via its conditions, and no entry means false. -/
def canTransitionStatus (f t : OperationStatus) (ctx : Ctx) : Bool :=
  if f = t then true
  else
    match (transitionsFor f).find? (fun tr => decide (tr.to_state = t)) with
    | some tr => check_conditions tr ctx
    | none => false

/-- OperationStateMachine.can_transition: unknown status strings return
false (the source catches the ValueError of the enum constructor). -/
def can_transition (fromState toState : String) (ctx : Ctx) : Bool :=
  match parseStatus fromState, parseStatus toState with
  | some f, some t => canTransitionStatus f t ctx
  | _, _ => false

/-- Result record of a successful transition, mirroring the result dict of
OperationStateMachine.transition (the wall-clock timestamp is not
modelled; it carries no information about the transition logic). -/
structure TransitionRecord where
  from_state : String
  to_state : String
  user_id : Option String
  effects_executed : List String
  requires_confirmation : Bool
deriving DecidableEq, Repr

/-- OperationStateMachine.transition.  Raised ValueErrors become
Except.error with a fixed message.  Every effect handler in
_execute_single_effect only logs and never raises (unknown names only
log a warning), and _execute_effects appends the effect name even when
the handler is unknown, so effects_executed is exactly the effect list
of the table entry. -/
def transition (fromState toState : String) (ctx : Ctx) (userId : Option String) :
    Except String TransitionRecord :=
  if can_transition fromState toState ctx then
    match parseStatus fromState, parseStatus toState with
    | some f, some t =>
      match (transitionsFor f).find? (fun tr => decide (tr.to_state = t)) with
      | some tr =>
        .ok { from_state := fromState, to_state := toState, user_id := userId,
              effects_executed := tr.effects,
              requires_confirmation := tr.requires_confirmation }
      | none => .error "Transition not found"
    | _, _ => .error "Invalid status values"
  else
    .error "Invalid transition"

/-- OperationStateMachine.is_terminal_state. -/
def is_terminal_state (s : String) : Bool :=
  match parseStatus s with
  | some st => decide (st = .finished) || decide (st = .cancelled)
  | none => false

/-- Error kinds of app/exceptions/mes_exceptions.py.  invalidState stands
for InvalidOperationStateException, whose error_type string is
"invalid_state_transition" (the InvalidStateTransition kind of the spec
taxonomy); invalidQuantity for InvalidQuantityException; notFound for
OperationNotFoundException; duplicateOperation for
DuplicateOperationException. -/
inductive MESError where
  | notFound
  | duplicateOperation
  | invalidQuantity
  | invalidState
deriving DecidableEq, Repr

/-- Stored operation row, mirroring the MESOperation model fields that the
service, CRUD and metrics code read.  Quantities are Nat (the pydantic
schema enforces ge=0), minute durations are Rat (Decimal), timestamps
are Int seconds. -/
structure MESOperation where
  order_no : String
  asset_id : Int
  operation_no : String
  status : Option String := none
  qty_desired : Option Nat := none
  qty_processed : Option Nat := none
  qty_scrap : Option Nat := none
  planned_start_at : Option Int := none
  planned_end_at : Option Int := none
  actual_start_at : Option Int := none
  actual_end_at : Option Int := none
  t_target_processing_min : Option Rat := none
  t_actual_processing_min : Option Rat := none
  timestamp_ms : Option Int := none
  change_type : Option String := none
deriving DecidableEq, Repr

/-- Creation payload, mirroring the MESOperationCreate schema (timestamp
and change type are required there). -/
structure MESOperationCreate where
  order_no : String
  asset_id : Int
  operation_no : String
  status : Option String := none
  qty_desired : Option Nat := none
  qty_processed : Option Nat := none
  qty_scrap : Option Nat := none
  planned_start_at : Option Int := none
  planned_end_at : Option Int := none
  actual_start_at : Option Int := none
  actual_end_at : Option Int := none
  t_target_processing_min : Option Rat := none
  t_actual_processing_min : Option Rat := none
  timestamp_ms : Int
  change_type : String
deriving DecidableEq, Repr

/-- Partial update payload, mirroring MESOperationUpdate with pydantic's
exclude_unset semantics: none means the field was not supplied and the
stored value stays (explicitly supplying a JSON null is not modelled;
the spec's partial-update note prescribes exactly this absent/present
wrapper). -/
structure MESOperationUpdate where
  status : Option String := none
  qty_desired : Option Nat := none
  qty_processed : Option Nat := none
  qty_scrap : Option Nat := none
  planned_start_at : Option Int := none
  planned_end_at : Option Int := none
  actual_start_at : Option Int := none
  actual_end_at : Option Int := none
  t_target_processing_min : Option Rat := none
  t_actual_processing_min : Option Rat := none
  timestamp_ms : Option Int := none
  change_type : Option String := none
deriving DecidableEq, Repr

/-- Merged view of one field: update_dict.get(field, stored). -/
def mergeField {α : Type} (supplied stored : Option α) : Option α :=
  match supplied with
  | some v => some v
  | none => stored

/-- Python truthiness of an optional non-negative integer: present and
non-zero. -/
def truthyNat : Option Nat → Bool
  | some v => decide (v ≠ 0)
  | none => false

/-- Python truthiness of an optional Decimal: present and non-zero. -/
def truthyRat : Option Rat → Bool
  | some v => decide (v ≠ 0)
  | none => false

/-- Composite key (order_no, asset_id, operation_no). -/
abbrev OperationKey := String × Int × String

/-- The storage collaborator: rows of the mes_operations table.  The
primary key makes the key of each row unique in every state the service
can produce. -/
abbrev Store := List (OperationKey × MESOperation)

/-- Key of a creation payload. -/
def createKey (c : MESOperationCreate) : OperationKey :=
  (c.order_no, c.asset_id, c.operation_no)

/-- crud.get_operation: the row with the given composite key. -/
def get_operation (db : Store) (k : OperationKey) : Option MESOperation :=
  (db.find? (fun e => decide (e.1 = k))).map (fun e => e.2)

/-- Row replacement used by the ORM when committing field assignments on a
fetched row. -/
def setOperation (db : Store) (k : OperationKey) (op : MESOperation) : Store :=
  db.map (fun e => if e.1 = k then (k, op) else e)

/-- Row removal used by db.delete of a fetched row (the primary key makes
the matching row unique). -/
def removeOperation (db : Store) (k : OperationKey) : Store :=
  db.filter (fun e => !(decide (e.1 = k)))

/-- Building the stored row from a creation payload, mirroring
MESOperation(**operation.model_dump()). -/
def toOperation (c : MESOperationCreate) : MESOperation :=
  { order_no := c.order_no, asset_id := c.asset_id, operation_no := c.operation_no,
    status := c.status, qty_desired := c.qty_desired,
    qty_processed := c.qty_processed, qty_scrap := c.qty_scrap,
    planned_start_at := c.planned_start_at, planned_end_at := c.planned_end_at,
    actual_start_at := c.actual_start_at, actual_end_at := c.actual_end_at,
    t_target_processing_min := c.t_target_processing_min,
    t_actual_processing_min := c.t_actual_processing_min,
    timestamp_ms := some c.timestamp_ms, change_type := some c.change_type }

/-- Applying the supplied fields of a partial update to a stored row,
mirroring the setattr loop of crud.update_operation over
model_dump(exclude_unset=True). -/
def applyUpdate (op : MESOperation) (u : MESOperationUpdate) : MESOperation :=
  { op with
    status := mergeField u.status op.status,
    qty_desired := mergeField u.qty_desired op.qty_desired,
    qty_processed := mergeField u.qty_processed op.qty_processed,
    qty_scrap := mergeField u.qty_scrap op.qty_scrap,
    planned_start_at := mergeField u.planned_start_at op.planned_start_at,
    planned_end_at := mergeField u.planned_end_at op.planned_end_at,
    actual_start_at := mergeField u.actual_start_at op.actual_start_at,
    actual_end_at := mergeField u.actual_end_at op.actual_end_at,
    t_target_processing_min :=
      mergeField u.t_target_processing_min op.t_target_processing_min,
    t_actual_processing_min :=
      mergeField u.t_actual_processing_min op.t_actual_processing_min,
    timestamp_ms := mergeField u.timestamp_ms op.timestamp_ms,
    change_type := mergeField u.change_type op.change_type }

/-- crud.create_operation: rechecks qty_processed against qty_desired with
the same truthiness guard as the service, then inserts the row. -/
def create_operation (db : Store) (c : MESOperationCreate) :
    Except MESError MESOperation × Store :=
  if truthyNat c.qty_processed && truthyNat c.qty_desired &&
      decide (c.qty_processed.getD 0 > c.qty_desired.getD 0) then
    (.error .invalidQuantity, db)
  else
    (.ok (toOperation c), (createKey c, toOperation c) :: db)

/-- crud.update_operation: fetches the row (none when absent), re-validates
qty_processed against qty_desired on the merged view, then applies the
supplied fields and commits. -/
def update_operation (db : Store) (k : OperationKey) (u : MESOperationUpdate) :
    Except MESError (Option MESOperation) × Store :=
  match get_operation db k with
  | none => (.ok none, db)
  | some dbOp =>
    let newP := mergeField u.qty_processed dbOp.qty_processed
    let newD := mergeField u.qty_desired dbOp.qty_desired
    if truthyNat newP && truthyNat newD && decide (newP.getD 0 > newD.getD 0) then
      (.error .invalidQuantity, db)
    else
      (.ok (some (applyUpdate dbOp u)), setOperation db k (applyUpdate dbOp u))

/-- crud.delete_operation: fetches the row, returns false when absent,
otherwise removes it and returns true. -/
def delete_operation (db : Store) (k : OperationKey) : Bool × Store :=
  match get_operation db k with
  | none => (false, db)
  | some _ => (true, removeOperation db k)

/-- The VALID_STATE_TRANSITIONS dict of MESOperationService, read with
dict.get(current, []): unlisted current statuses (terminal states, a
missing status, unknown strings) give the empty list. -/
def validNextStates (current : Option String) : List String :=
  match current with
  | some "PLANNED" => ["RELEASED", "CANCELLED"]
  | some "RELEASED" => ["IN_PROGRESS", "CANCELLED", "ON_HOLD"]
  | some "IN_PROGRESS" => ["FINISHED", "ON_HOLD", "CANCELLED"]
  | some "ON_HOLD" => ["IN_PROGRESS", "CANCELLED"]
  | _ => []

/-- MESOperationService._validate_state_transition: same status is a no-op,
otherwise the target must appear in the table row of the current status. -/
def validate_state_transition (currentStatus : Option String) (newStatus : String) :
    Option MESError :=
  if currentStatus = some newStatus then none
  else if newStatus ∈ validNextStates currentStatus then none
  else some .invalidState

/-- The status part of MESOperationService.update: the transition is checked
only when the partial update supplies a status. -/
def checkStatusUpdate (existing : MESOperation) (u : MESOperationUpdate) :
    Option MESError :=
  match u.status with
  | none => none
  | some s => validate_state_transition existing.status s

/-- MESOperationService._validate_quantities_update over the merged view of
supplied fields over stored values.  Both checks guard with Python
truthiness, so a present zero quantity disables them. -/
def validate_quantities_update (existing : MESOperation) (u : MESOperationUpdate) :
    Option MESError :=
  let newP := mergeField u.qty_processed existing.qty_processed
  let newD := mergeField u.qty_desired existing.qty_desired
  let newS := mergeField u.qty_scrap existing.qty_scrap
  if truthyNat newP && truthyNat newD && decide (newP.getD 0 > newD.getD 0) then
    some .invalidQuantity
  else if truthyNat newS && truthyNat newP && decide (newS.getD 0 > newP.getD 0) then
    some .invalidQuantity
  else
    none

/-- MESOperationService._validate_operation_data: the qty_processed versus
qty_desired truthiness-guarded check, then the planned time ordering
check (datetimes are always truthy, so only presence is tested).  The
creation path never compares qty_scrap with qty_processed. -/
def validate_operation_data (c : MESOperationCreate) : Option MESError :=
  if truthyNat c.qty_processed && truthyNat c.qty_desired &&
      decide (c.qty_processed.getD 0 > c.qty_desired.getD 0) then
    some .invalidQuantity
  else
    match c.planned_start_at, c.planned_end_at with
    | some s, some e => if s ≥ e then some .invalidState else none
    | _, _ => none

/-- MESOperationService.create: duplicate check, business validation, then
the CRUD insert.  Every validation error leaves the store untouched. -/
def serviceCreate (db : Store) (c : MESOperationCreate) :
    Except MESError MESOperation × Store :=
  if (get_operation db (createKey c)).isSome then
    (.error .duplicateOperation, db)
  else
    match validate_operation_data c with
    | some e => (.error e, db)
    | none => create_operation db c

/-- MESOperationService.update: fetch (NotFound when absent), state
transition validation when a status is supplied, merged quantity
validation, then the CRUD partial update. -/
def serviceUpdate (db : Store) (k : OperationKey) (u : MESOperationUpdate) :
    Except MESError (Option MESOperation) × Store :=
  match get_operation db k with
  | none => (.error .notFound, db)
  | some existing =>
    match checkStatusUpdate existing u with
    | some e => (.error e, db)
    | none =>
      match validate_quantities_update existing u with
      | some e => (.error e, db)
      | none => update_operation db k u

/-- MESOperationService.delete: an absent key returns false without raising;
a FINISHED row raises InvalidOperationStateException and stays in place;
any other row is removed via the CRUD layer. -/
def serviceDelete (db : Store) (k : OperationKey) : Except MESError Bool × Store :=
  match get_operation db k with
  | none => (.ok false, db)
  | some existing =>
    if existing.status = some "FINISHED" then
      (.error .invalidState, db)
    else
      let r := delete_operation db k
      (.ok r.1, r.2)

/-- The update payload built by MESOperationService.finish_operation: status
FINISHED, actual end and event timestamps set to now, change type
UPDATE, and qty_processed only when a final quantity was passed. -/
def finishUpdateData (now : Int) (finalQuantity : Option Nat) : MESOperationUpdate :=
  { status := some "FINISHED", actual_end_at := some now, timestamp_ms := some now,
    change_type := some "UPDATE", qty_processed := finalQuantity }

/-- MESOperationService.finish_operation: fetch (NotFound when absent),
reject any current status other than IN_PROGRESS, otherwise delegate to
the update path with the finish payload.  now is the wall clock passed
explicitly to keep the embedding pure. -/
def serviceFinishOperation (now : Int) (db : Store) (k : OperationKey)
    (finalQuantity : Option Nat) : Except MESError (Option MESOperation) × Store :=
  match get_operation db k with
  | none => (.error .notFound, db)
  | some op =>
    if op.status ≠ some "IN_PROGRESS" then
      (.error .invalidState, db)
    else
      serviceUpdate db k (finishUpdateData now finalQuantity)

/-- Decimal-place rounding used to embed Python's round(x, n); the claims
about metrics concern only which entries are present, not tie-breaking,
so half-up rounding on exact rationals stands in for float rounding. -/
def roundDp (dp : Nat) (q : Rat) : Rat :=
  ((round (q * 10 ^ dp) : Int) : Rat) / 10 ^ dp

/-- Metrics dict produced by ManufacturingRules.calculate_operation_metrics;
an absent field models a key omitted from the dict. -/
structure OperationMetrics where
  processing_efficiency : Option Rat := none
  throughput_per_hour : Option Rat := none
  scrap_rate : Option Rat := none
  quality_rate : Option Rat := none
  start_time_variance_hours : Option Rat := none
  end_time_variance_hours : Option Rat := none
  completion_percentage : Option Rat := none
deriving DecidableEq, Repr

/-- Efficiency entry: both durations truthy and the actual strictly
positive, value target over actual. -/
def calcProcessingEfficiency (op : MESOperation) : Option Rat :=
  if truthyRat op.t_target_processing_min && truthyRat op.t_actual_processing_min then
    if op.t_actual_processing_min.getD 0 > 0 then
      some (roundDp 3
        (op.t_target_processing_min.getD 0 / op.t_actual_processing_min.getD 0))
    else none
  else none

/-- Throughput entry: processed quantity truthy, actual duration truthy and
strictly positive, value quantity per hour. -/
def calcThroughputPerHour (op : MESOperation) : Option Rat :=
  if truthyNat op.qty_processed && truthyRat op.t_actual_processing_min then
    if op.t_actual_processing_min.getD 0 > 0 then
      some (roundDp 2
        ((op.qty_processed.getD 0 : Rat) / (op.t_actual_processing_min.getD 0 / 60)))
    else none
  else none

/-- Scrap-rate entry: both quantities truthy and processed strictly
positive. -/
def calcScrapRate (op : MESOperation) : Option Rat :=
  if truthyNat op.qty_processed && truthyNat op.qty_scrap then
    if op.qty_processed.getD 0 > 0 then
      some (roundDp 4 ((op.qty_scrap.getD 0 : Rat) / (op.qty_processed.getD 0 : Rat)))
    else none
  else none

/-- Quality-rate entry: present exactly when the scrap rate is, value one
minus the unrounded scrap rate. -/
def calcQualityRate (op : MESOperation) : Option Rat :=
  if truthyNat op.qty_processed && truthyNat op.qty_scrap then
    if op.qty_processed.getD 0 > 0 then
      some (roundDp 4
        (1 - (op.qty_scrap.getD 0 : Rat) / (op.qty_processed.getD 0 : Rat)))
    else none
  else none

/-- Start-schedule variance in hours: present when both timestamps are
(datetime values are always truthy). -/
def calcStartTimeVariance (op : MESOperation) : Option Rat :=
  match op.planned_start_at, op.actual_start_at with
  | some p, some a => some (roundDp 2 (((a - p : Int) : Rat) / 3600))
  | _, _ => none

/-- End-schedule variance in hours: present when both timestamps are. -/
def calcEndTimeVariance (op : MESOperation) : Option Rat :=
  match op.planned_end_at, op.actual_end_at with
  | some p, some a => some (roundDp 2 (((a - p : Int) : Rat) / 3600))
  | _, _ => none

/-- Completion entry: both quantities truthy (truthiness already excludes a
zero divisor), value capped at one. -/
def calcCompletionPercentage (op : MESOperation) : Option Rat :=
  if truthyNat op.qty_desired && truthyNat op.qty_processed then
    some (roundDp 3
      (min ((op.qty_processed.getD 0 : Rat) / (op.qty_desired.getD 0 : Rat)) 1))
  else none

/-- ManufacturingRules.calculate_operation_metrics assembled from the entry
computations above, one per key of the source dict. -/
def calculate_operation_metrics (op : MESOperation) : OperationMetrics :=
  { processing_efficiency := calcProcessingEfficiency op,
    throughput_per_hour := calcThroughputPerHour op,
    scrap_rate := calcScrapRate op,
    quality_rate := calcQualityRate op,
    start_time_variance_hours := calcStartTimeVariance op,
    end_time_variance_hours := calcEndTimeVariance op,
    completion_percentage := calcCompletionPercentage op }

/-- Example composite key used by concrete witnesses. -/
def exKey : OperationKey := ("WO-1", 1, "0010")

/-- Example stored operation in status RELEASED. -/
def exOpReleased : MESOperation :=
  { order_no := "WO-1", asset_id := 1, operation_no := "0010",
    status := some "RELEASED", qty_desired := some 100, qty_processed := some 10 }

/-- Example store holding the RELEASED operation. -/
def exDb : Store := [(exKey, exOpReleased)]

/-- Example stored operation in status FINISHED. -/
def exOpFinished : MESOperation :=
  { order_no := "WO-1", asset_id := 1, operation_no := "0010",
    status := some "FINISHED", qty_desired := some 100, qty_processed := some 100,
    actual_start_at := some 0, actual_end_at := some 60 }

/-- Example store holding the FINISHED operation. -/
def exDbFinished : Store := [(exKey, exOpFinished)]

/-- Example stored operation in status IN_PROGRESS. -/
def exOpInProgress : MESOperation :=
  { order_no := "WO-1", asset_id := 1, operation_no := "0010",
    status := some "IN_PROGRESS", qty_desired := some 100, qty_processed := some 10,
    actual_start_at := some 0 }

/-- Example store holding the IN_PROGRESS operation. -/
def exDbInProgress : Store := [(exKey, exOpInProgress)]

/-- Creation payload whose desired quantity is present but zero while the
processed quantity exceeds it. -/
def exCreateZeroDesired : MESOperationCreate :=
  { order_no := "WO-1", asset_id := 1, operation_no := "0010",
    status := some "PLANNED", qty_desired := some 0, qty_processed := some 5,
    timestamp_ms := 0, change_type := "INSERT" }

/-- Creation payload with positive quantities and processed above desired. -/
def exCreateBadQty : MESOperationCreate :=
  { order_no := "WO-1", asset_id := 1, operation_no := "0010",
    status := some "PLANNED", qty_desired := some 100, qty_processed := some 150,
    timestamp_ms := 0, change_type := "INSERT" }

/-- Creation payload whose scrap quantity exceeds its processed quantity. -/
def exCreateScrap : MESOperationCreate :=
  { order_no := "WO-1", asset_id := 1, operation_no := "0010",
    status := some "PLANNED", qty_desired := some 10, qty_processed := some 2,
    qty_scrap := some 5, timestamp_ms := 0, change_type := "INSERT" }

/-- Partial update raising the processed quantity above the stored desired
quantity. -/
def exUpdBadQty : MESOperationUpdate := { qty_processed := some 150 }

/-- Partial update raising the scrap quantity above the merged processed
quantity. -/
def exUpdBadScrap : MESOperationUpdate := { qty_scrap := some 50 }

/-- Operation with every optional field absent, for the metrics witness. -/
def exOpBare : MESOperation :=
  { order_no := "WO-1", asset_id := 1, operation_no := "0010" }

/-- Helper: only the string FINISHED parses to the finished status. -/
lemma parseStatus_finished_eq {t : String}
    (h : parseStatus t = some OperationStatus.finished) : t = "FINISHED" := by
  unfold parseStatus at h
  split_ifs at h with h1 h2 h3 h4 h5 h6 <;> simp_all

/-- Helper: only the string CANCELLED parses to the cancelled status. -/
lemma parseStatus_cancelled_eq {t : String}
    (h : parseStatus t = some OperationStatus.cancelled) : t = "CANCELLED" := by
  unfold parseStatus at h
  split_ifs at h with h1 h2 h3 h4 h5 h6 <;> simp_all

/-- C2 counterexample: a same-state call on a terminal state returns true,
because the same-state short-circuit of can_transition runs before any
table lookup; so can_transition(FINISHED, t) is not false for every t. -/
theorem can_transition_finished_self_true :
    can_transition "FINISHED" "FINISHED" {} = true := rfl

/-- C2 (amended): can_transition from FINISHED or CANCELLED is false for
every target other than the state itself, and the transition table rows
of both terminal states are empty. -/
theorem terminal_states_no_outgoing :
    (∀ (t : String) (ctx : Ctx), t ≠ "FINISHED" →
        can_transition "FINISHED" t ctx = false) ∧
    (∀ (t : String) (ctx : Ctx), t ≠ "CANCELLED" →
        can_transition "CANCELLED" t ctx = false) ∧
    transitionsFor OperationStatus.finished = [] ∧
    transitionsFor OperationStatus.cancelled = [] := by
  refine ⟨?_, ?_, rfl, rfl⟩
  · intro t ctx ht
    unfold can_transition
    rw [show parseStatus "FINISHED" = some OperationStatus.finished from rfl]
    cases hp : parseStatus t with
    | none => rfl
    | some x =>
      cases x <;> first
        | rfl
        | exact absurd (parseStatus_finished_eq hp) ht
  · intro t ctx ht
    unfold can_transition
    rw [show parseStatus "CANCELLED" = some OperationStatus.cancelled from rfl]
    cases hp : parseStatus t with
    | none => rfl
    | some x =>
      cases x <;> first
        | rfl
        | exact absurd (parseStatus_cancelled_eq hp) ht

/-- C2 witness: concrete distinct targets from both terminal states are
rejected. -/
theorem terminal_states_no_outgoing_witness :
    can_transition "FINISHED" "PLANNED" {} = false ∧
    can_transition "CANCELLED" "IN_PROGRESS" {} = false :=
  ⟨terminal_states_no_outgoing.1 "PLANNED" {} (by decide),
   terminal_states_no_outgoing.2.1 "IN_PROGRESS" {} (by decide)⟩

/-- C4: for every pair of distinct states and every context, when
can_transition is false the transition call raises an invalid-transition
error instead of returning a transition record. -/
theorem transition_raises_when_not_allowed (f t : OperationStatus) (ctx : Ctx)
    (u : Option String) (_hne : f ≠ t)
    (h : can_transition (statusStr f) (statusStr t) ctx = false) :
    transition (statusStr f) (statusStr t) ctx u =
      Except.error "Invalid transition" := by
  simp [transition, h]

/-- C4 witness: RELEASED to IN_PROGRESS with an empty context fails the
setup_complete precondition, so can_transition is false and transition
raises. -/
theorem transition_raises_when_not_allowed_witness :
    can_transition (statusStr .released) (statusStr .inProgress) {} = false ∧
    transition (statusStr .released) (statusStr .inProgress) {} none =
      Except.error "Invalid transition" :=
  ⟨rfl, transition_raises_when_not_allowed .released .inProgress {} none
    (by decide) rfl⟩

/-- Helper: a committed row removal makes the key unfetchable. -/
lemma get_operation_remove (db : Store) (k : OperationKey) :
    get_operation (removeOperation db k) k = none := by
  have h : List.find? (fun e => decide (e.1 = k)) (removeOperation db k) = none := by
    rw [List.find?_eq_none]
    intro x hx
    have hmem := List.of_mem_filter hx
    simpa using hmem
  simp [get_operation, h]

/-- C6: every partial update rejected by validation writes nothing: the
store after the failed call is the one before it, so a subsequent fetch
of the key returns the operation unchanged. -/
theorem update_error_no_write (db : Store) (k : OperationKey)
    (u : MESOperationUpdate) (e : MESError)
    (h : (serviceUpdate db k u).1 = Except.error e) :
    (serviceUpdate db k u).2 = db ∧
    get_operation (serviceUpdate db k u).2 k = get_operation db k := by
  have h2 : (serviceUpdate db k u).2 = db := by
    cases hf : get_operation db k with
    | none => simp [serviceUpdate, hf]
    | some ex =>
      cases hs : checkStatusUpdate ex u with
      | some e1 => simp [serviceUpdate, hf, hs]
      | none =>
        cases hq : validate_quantities_update ex u with
        | some e1 => simp [serviceUpdate, hf, hs, hq]
        | none =>
          simp only [serviceUpdate, hf, hs, hq] at h ⊢
          simp only [update_operation, hf] at h ⊢
          by_cases hc :
              (truthyNat (mergeField u.qty_processed ex.qty_processed) &&
               truthyNat (mergeField u.qty_desired ex.qty_desired) &&
               decide ((mergeField u.qty_processed ex.qty_processed).getD 0 >
                 (mergeField u.qty_desired ex.qty_desired).getD 0)) = true
          · simp [hc]
          · simp [hc] at h
  exact ⟨h2, by rw [h2]⟩

/-- C6 witness: the spec scenario, qty_processed 150 against stored
qty_desired 100, fails with InvalidQuantity and the store is unchanged. -/
theorem update_error_no_write_witness :
    (serviceUpdate exDb exKey exUpdBadQty).1 =
      Except.error MESError.invalidQuantity ∧
    (serviceUpdate exDb exKey exUpdBadQty).2 = exDb ∧
    get_operation (serviceUpdate exDb exKey exUpdBadQty).2 exKey =
      get_operation exDb exKey :=
  ⟨rfl,
   (update_error_no_write exDb exKey exUpdBadQty MESError.invalidQuantity rfl).1,
   (update_error_no_write exDb exKey exUpdBadQty MESError.invalidQuantity rfl).2⟩

/-- C1 counterexample: a creation payload with qty_processed 5 and
qty_desired 0 has both quantities present and processed above desired,
yet create succeeds and persists the row, because the quantity check
guards with Python truthiness and a present zero counts as absent. -/
theorem create_zero_desired_accepted :
    serviceCreate [] exCreateZeroDesired =
      (Except.ok (toOperation exCreateZeroDesired),
       [(createKey exCreateZeroDesired, toOperation exCreateZeroDesired)]) ∧
    (serviceCreate [] exCreateZeroDesired).1 ≠
      Except.error MESError.invalidQuantity :=
  ⟨rfl, by
    intro hc
    rw [show (serviceCreate [] exCreateZeroDesired).1 =
        Except.ok (toOperation exCreateZeroDesired) from rfl] at hc
    exact Except.noConfusion hc⟩

/-- C1 (amended): when both quantities are present and positive with
qty_processed above qty_desired, create on a fresh key fails with
InvalidQuantity and persists nothing, and an update of an existing
operation that passes state-transition validation fails with
InvalidQuantity on the merged quantities and persists nothing; a present
zero quantity is treated as absent by the truthiness guards. -/
theorem qty_processed_exceeds_desired_rejected :
    (∀ (db : Store) (c : MESOperationCreate) (p d : Nat),
      get_operation db (createKey c) = none →
      c.qty_processed = some p → c.qty_desired = some d →
      0 < d → d < p →
      serviceCreate db c = (Except.error MESError.invalidQuantity, db)) ∧
    (∀ (db : Store) (k : OperationKey) (u : MESOperationUpdate)
      (ex : MESOperation) (p d : Nat),
      get_operation db k = some ex →
      checkStatusUpdate ex u = none →
      mergeField u.qty_processed ex.qty_processed = some p →
      mergeField u.qty_desired ex.qty_desired = some d →
      0 < d → d < p →
      serviceUpdate db k u = (Except.error MESError.invalidQuantity, db)) := by
  constructor
  · intro db c p d hF hP hD hd hpd
    have hp : 0 < p := lt_trans hd hpd
    have hv : validate_operation_data c = some MESError.invalidQuantity := by
      unfold validate_operation_data
      rw [hP, hD]
      simp [truthyNat, Nat.pos_iff_ne_zero.mp hp, Nat.pos_iff_ne_zero.mp hd, hpd]
    simp [serviceCreate, hF, hv]
  · intro db k u ex p d hF hS hP hD hd hpd
    have hp : 0 < p := lt_trans hd hpd
    have hv : validate_quantities_update ex u = some MESError.invalidQuantity := by
      simp only [validate_quantities_update]
      rw [hP, hD]
      simp [truthyNat, Nat.pos_iff_ne_zero.mp hp, Nat.pos_iff_ne_zero.mp hd, hpd]
    simp [serviceUpdate, hF, hS, hv]

/-- C1 witness: create with processed 150 over desired 100 on an empty
store, and the same violation through an update of a stored RELEASED
operation, both fail with InvalidQuantity and leave the store as it
was. -/
theorem qty_processed_exceeds_desired_rejected_witness :
    serviceCreate [] exCreateBadQty =
      (Except.error MESError.invalidQuantity, []) ∧
    serviceUpdate exDb exKey exUpdBadQty =
      (Except.error MESError.invalidQuantity, exDb) :=
  ⟨qty_processed_exceeds_desired_rejected.1 [] exCreateBadQty 150 100 rfl rfl rfl
    (by decide) (by decide),
   qty_processed_exceeds_desired_rejected.2 exDb exKey exUpdBadQty exOpReleased
    150 100 rfl rfl rfl rfl (by decide) (by decide)⟩

/-- C5 counterexample: a creation payload with qty_scrap 5 above
qty_processed 2, both present and positive, is accepted and persisted:
the creation path never compares scrap against processed (only the
update path does). -/
theorem create_scrap_exceeds_processed_accepted :
    serviceCreate [] exCreateScrap =
      (Except.ok (toOperation exCreateScrap),
       [(createKey exCreateScrap, toOperation exCreateScrap)]) ∧
    (serviceCreate [] exCreateScrap).1 ≠
      Except.error MESError.invalidQuantity :=
  ⟨rfl, by
    intro hc
    rw [show (serviceCreate [] exCreateScrap).1 =
        Except.ok (toOperation exCreateScrap) from rfl] at hc
    exact Except.noConfusion hc⟩

/-- C5 (amended): on the update path, when the merged scrap and processed
quantities are both present and positive and scrap exceeds processed,
an update of an existing operation passing state-transition validation
fails with InvalidQuantity and persists nothing; the create path
performs no scrap-versus-processed validation at all. -/
theorem scrap_exceeds_processed_update_rejected
    (db : Store) (k : OperationKey) (u : MESOperationUpdate)
    (ex : MESOperation) (s p : Nat)
    (hF : get_operation db k = some ex)
    (hS : checkStatusUpdate ex u = none)
    (hSc : mergeField u.qty_scrap ex.qty_scrap = some s)
    (hP : mergeField u.qty_processed ex.qty_processed = some p)
    (hp : 0 < p) (hps : p < s) :
    serviceUpdate db k u = (Except.error MESError.invalidQuantity, db) := by
  have hs0 : s ≠ 0 := Nat.pos_iff_ne_zero.mp (lt_trans hp hps)
  have hv : validate_quantities_update ex u = some MESError.invalidQuantity := by
    simp only [validate_quantities_update]
    rw [hP, hSc]
    split
    · rfl
    · simp [truthyNat, Nat.pos_iff_ne_zero.mp hp, hs0, hps]
  simp [serviceUpdate, hF, hS, hv]

/-- C5 witness: an update setting qty_scrap to 50 against the stored
processed quantity 10 fails with InvalidQuantity, leaving the store
unchanged. -/
theorem scrap_exceeds_processed_update_rejected_witness :
    serviceUpdate exDb exKey exUpdBadScrap =
      (Except.error MESError.invalidQuantity, exDb) :=
  scrap_exceeds_processed_update_rejected exDb exKey exUpdBadScrap exOpReleased
    50 10 rfl rfl rfl rfl (by decide) (by decide)

/-- C3: for every state s among the six defined operation statuses and
every context, can_transition(s, s, context) returns true: a same-state
call is always permitted as a no-op. -/
theorem can_transition_same_state_true (st : OperationStatus) (ctx : Ctx) :
    can_transition (statusStr st) (statusStr st) ctx = true := by
  cases st <;> rfl

/-- C10: for every state s among the six defined operation statuses and
every context, transition(s, s, context, actor) raises (no table entry
exists for a same-state pair) even though can_transition(s, s, context)
returns true for the same arguments. -/
theorem transition_same_state_raises (st : OperationStatus) (ctx : Ctx)
    (u : Option String) :
    can_transition (statusStr st) (statusStr st) ctx = true ∧
    transition (statusStr st) (statusStr st) ctx u =
      Except.error "Transition not found" := by
  cases st <;> exact ⟨rfl, rfl⟩

/-- C7 counterexample: deleting an absent key returns false without any
error: the service does not raise NotFound (its HTTP callers translate
the false return into a 404). -/
theorem delete_absent_returns_false :
    serviceDelete [] exKey = (Except.ok false, []) ∧
    (serviceDelete ([] : Store) exKey).1 ≠ Except.error MESError.notFound :=
  ⟨rfl, by
    intro hc
    rw [show (serviceDelete ([] : Store) exKey).1 = Except.ok false from rfl] at hc
    exact Except.noConfusion hc⟩

/-- C7 (amended): delete of an absent key returns false without raising;
delete of a FINISHED operation fails with the invalid-state error and
leaves the row in place; delete of any other existing operation
succeeds, after which fetching the key returns absent. -/
theorem delete_semantics (db : Store) (k : OperationKey) :
    (get_operation db k = none → serviceDelete db k = (Except.ok false, db)) ∧
    (∀ ex, get_operation db k = some ex → ex.status = some "FINISHED" →
      serviceDelete db k = (Except.error MESError.invalidState, db)) ∧
    (∀ ex, get_operation db k = some ex → ex.status ≠ some "FINISHED" →
      (serviceDelete db k).1 = Except.ok true ∧
      get_operation (serviceDelete db k).2 k = none) := by
  refine ⟨?_, ?_, ?_⟩
  · intro h
    simp [serviceDelete, h]
  · intro ex h hfin
    simp [serviceDelete, h, hfin]
  · intro ex h hnf
    simp [serviceDelete, h, hnf, delete_operation]
    exact get_operation_remove db k

/-- C7 witness: the three branches at concrete stores: empty store, a
FINISHED row, and a RELEASED row that disappears after deletion. -/
theorem delete_semantics_witness :
    serviceDelete [] exKey = (Except.ok false, []) ∧
    serviceDelete exDbFinished exKey =
      (Except.error MESError.invalidState, exDbFinished) ∧
    (serviceDelete exDb exKey).1 = Except.ok true ∧
    get_operation (serviceDelete exDb exKey).2 exKey = none :=
  ⟨(delete_semantics [] exKey).1 rfl,
   (delete_semantics exDbFinished exKey).2.1 exOpFinished rfl rfl,
   ((delete_semantics exDb exKey).2.2 exOpReleased rfl (by decide)).1,
   ((delete_semantics exDb exKey).2.2 exOpReleased rfl (by decide)).2⟩

/-- C8: finish_operation on an existing operation whose status is not
IN_PROGRESS fails with the invalid-state-transition error and leaves
the store unchanged; on an IN_PROGRESS operation it proceeds exactly as
the update that sets status FINISHED and actual_end_at and optionally
overrides qty_processed. -/
theorem finish_requires_in_progress (now : Int) (db : Store) (k : OperationKey)
    (q : Option Nat) (ex : MESOperation) (hF : get_operation db k = some ex) :
    (ex.status ≠ some "IN_PROGRESS" →
      serviceFinishOperation now db k q = (Except.error MESError.invalidState, db)) ∧
    (ex.status = some "IN_PROGRESS" →
      serviceFinishOperation now db k q =
        serviceUpdate db k (finishUpdateData now q)) := by
  constructor
  · intro hne
    simp [serviceFinishOperation, hF, hne]
  · intro heq
    simp [serviceFinishOperation, hF, heq]

/-- C8 witness: finishing the RELEASED example fails with the invalid-state
error and changes nothing, while finishing the IN_PROGRESS example
equals the corresponding update call. -/
theorem finish_requires_in_progress_witness :
    serviceFinishOperation 5 exDb exKey none =
      (Except.error MESError.invalidState, exDb) ∧
    serviceFinishOperation 5 exDbInProgress exKey (some 100) =
      serviceUpdate exDbInProgress exKey (finishUpdateData 5 (some 100)) :=
  ⟨(finish_requires_in_progress 5 exDb exKey none exOpReleased rfl).1 (by decide),
   (finish_requires_in_progress 5 exDbInProgress exKey (some 100) exOpInProgress
     rfl).2 rfl⟩

/-- C9: each ratio metric is omitted from the result whenever its
denominator is zero or one of its operands is absent; in particular the
efficiency entry is omitted when t_actual_processing_min is zero or
absent, so no division by zero is ever performed. -/
theorem metrics_omitted_on_zero_or_absent (op : MESOperation) :
    ((op.t_actual_processing_min = none ∨ op.t_actual_processing_min = some 0) →
      (calculate_operation_metrics op).processing_efficiency = none ∧
      (calculate_operation_metrics op).throughput_per_hour = none) ∧
    (op.t_target_processing_min = none →
      (calculate_operation_metrics op).processing_efficiency = none) ∧
    ((op.qty_processed = none ∨ op.qty_processed = some 0) →
      (calculate_operation_metrics op).throughput_per_hour = none ∧
      (calculate_operation_metrics op).scrap_rate = none ∧
      (calculate_operation_metrics op).quality_rate = none ∧
      (calculate_operation_metrics op).completion_percentage = none) ∧
    (op.qty_scrap = none →
      (calculate_operation_metrics op).scrap_rate = none ∧
      (calculate_operation_metrics op).quality_rate = none) ∧
    ((op.qty_desired = none ∨ op.qty_desired = some 0) →
      (calculate_operation_metrics op).completion_percentage = none) := by
  refine ⟨?_, ?_, ?_, ?_, ?_⟩
  · rintro (h | h) <;>
      simp [calculate_operation_metrics, calcProcessingEfficiency,
        calcThroughputPerHour, truthyRat, truthyNat, h]
  · intro h
    simp [calculate_operation_metrics, calcProcessingEfficiency, truthyRat, h]
  · rintro (h | h) <;>
      simp [calculate_operation_metrics, calcThroughputPerHour, calcScrapRate,
        calcQualityRate, calcCompletionPercentage, truthyRat, truthyNat, h]
  · intro h
    simp [calculate_operation_metrics, calcScrapRate, calcQualityRate,
      truthyNat, h]
  · rintro (h | h) <;>
      simp [calculate_operation_metrics, calcCompletionPercentage, truthyNat, h]

/-- C9 witness: on an operation with every optional field absent, all ratio
entries are omitted. -/
theorem metrics_omitted_on_zero_or_absent_witness :
    (calculate_operation_metrics exOpBare).processing_efficiency = none ∧
    (calculate_operation_metrics exOpBare).throughput_per_hour = none ∧
    (calculate_operation_metrics exOpBare).scrap_rate = none ∧
    (calculate_operation_metrics exOpBare).quality_rate = none ∧
    (calculate_operation_metrics exOpBare).completion_percentage = none :=
  ⟨((metrics_omitted_on_zero_or_absent exOpBare).1 (Or.inl rfl)).1,
   ((metrics_omitted_on_zero_or_absent exOpBare).2.2.1 (Or.inl rfl)).1,
   ((metrics_omitted_on_zero_or_absent exOpBare).2.2.1 (Or.inl rfl)).2.1,
   ((metrics_omitted_on_zero_or_absent exOpBare).2.2.2.1 rfl).2,
   ((metrics_omitted_on_zero_or_absent exOpBare).2.2.2.2 (Or.inl rfl))⟩

end MESWorkshop
